import Mathlib

/-!
Formal model of `analyze_gitlab_comments.py` (repository gitlab-gpt-insights).

Python strings are modelled as lists of characters (`PyStr`), so that the
string-processing primitives the script uses (`str.split`, `str.startswith`,
`str.strip`, slicing, `'\n'.join`, `int(...)`) can be given structurally
recursive, executable Lean definitions that mirror Python's semantics.
Python `None` is modelled by `Option`, Python exceptions by `Except PyError`.
Timestamps (`created_at`) are modelled as naturals: the script compares
ISO-8601 timestamp strings, whose lexicographic order coincides with
chronological order, so any order-isomorphic representation is faithful.
-/

/-- A Python string, modelled as its list of characters. -/
abbrev PyStr := List Char

/-- Coercion from a Lean string literal to the `List Char` model. -/
def pystr (s : String) : PyStr := s.data

/-- Python `s.split(sep)` for a single-character separator `sep`: splits on
every occurrence, keeping empty fragments; `''.split(sep) == ['']`. -/
def py_split (sep : Char) : PyStr → List PyStr
  | [] => [[]]
  | c :: cs =>
    let r := py_split sep cs
    if c = sep then [] :: r
    else
      match r with
      | h :: t => (c :: h) :: t
      | [] => [[c]]

/-- Python `s.startswith(p)`. -/
def py_startswith (s p : PyStr) : Bool := p.isPrefixOf s

/-- Python's whitespace test used by `str.strip` (restricted to the ASCII
whitespace characters that can occur in diff text). -/
def py_isspace (c : Char) : Bool := c.isWhitespace

/-- Python `s.strip()`: remove leading and trailing whitespace. -/
def py_strip (s : PyStr) : PyStr :=
  ((s.dropWhile py_isspace).reverse.dropWhile py_isspace).reverse

/-- Python `int(s)` restricted to the shapes occurring here: an optional
sign followed by one or more decimal digits; anything else raises
`ValueError` (modelled by `none`). -/
def py_digits? (s : PyStr) : Option Nat :=
  if s = [] then none
  else if s.all Char.isDigit then
    some (s.foldl (fun acc c => acc * 10 + (c.toNat - 48)) 0)
  else none

/-- Python `int(s)` (sign handling). -/
def py_int? (s : PyStr) : Option Int :=
  match s with
  | '-' :: ds => (py_digits? ds).map (fun n => -(n : Int))
  | '+' :: ds => (py_digits? ds).map (fun n => (n : Int))
  | ds => (py_digits? ds).map (fun n => (n : Int))

/-- Python `sep.join(parts)` for a single-character separator. -/
def py_join (sep : Char) (parts : List PyStr) : PyStr :=
  (parts.intersperse [sep]).flatten

/-- Python `s.splitlines()` for text whose only line terminator is `'\n'`:
like `s.split('\n')` except that the empty string yields `[]` and a
trailing newline does not produce a trailing empty fragment. -/
def py_splitlines (s : PyStr) : List PyStr :=
  if s = [] then []
  else if s.getLast? = some '\n' then (py_split '\n' s).dropLast
  else py_split '\n' s

/-- Python truthiness of an optional string (`None` and `''` are falsy). -/
def py_truthy (s : Option PyStr) : Bool :=
  match s with
  | none => false
  | some s => !s.isEmpty

/-- A Python exception escaping a function of the script. -/
inductive PyError where
  /-- `TypeError`, e.g. `None + 1` when a counter is incremented before any
  hunk header initialised it. -/
  | typeError : PyError
  /-- `ValueError` from `int(...)`, carrying the offending literal
  (the argument of Python's `invalid literal for int()` message). -/
  | valueError : PyStr → PyError
  /-- `IndexError` from subscripting a too-short list. -/
  | indexError : PyError
deriving DecidableEq, Repr

/-- Parsing of one hunk-header line inside `extract_line_from_diff`
(source lines 347-351): `parts = line.split(' ')`;
`current_line_number_old = int(parts[1].split(',')[0][1:])` and the same
for `parts[2]`.  `parts[1]`/`parts[2]` raise `IndexError` when absent and
`int` raises `ValueError` on a non-numeric token. -/
def parse_hunk_header (line : PyStr) : Except PyError (Int × Int) :=
  let parts := py_split ' ' line
  match parts.get? 1, parts.get? 2 with
  | some old_line_info, some new_line_info =>
    let old_tok := ((py_split ',' old_line_info).headD []).drop 1
    let new_tok := ((py_split ',' new_line_info).headD []).drop 1
    match py_int? old_tok with
    | none => .error (.valueError old_tok)
    | some o =>
      match py_int? new_tok with
      | none => .error (.valueError new_tok)
      | some n => .ok (o, n)
  | _, _ => .error .indexError

/-- Python `x += 1` on an `Option Int`: `None + 1` raises `TypeError`. -/
def py_incr : Option Int → Except PyError Int
  | none => .error .typeError
  | some k => .ok (k + 1)

/-- The loop body of `extract_line_from_diff` (source lines 345-373),
carrying the two running counters `current_line_number_old` and
`current_line_number_new` (both `None` until the first hunk header). -/
def extract_go (line_type : PyStr) (line_number : Int) :
    List PyStr → Option Int → Option Int → Except PyError (Option PyStr)
  | [], _, _ => .ok none
  | line :: rest, oldC, newC =>
    if py_startswith line (pystr "@@") then
      match parse_hunk_header line with
      | .error e => .error e
      | .ok (o, n) => extract_go line_type line_number rest (some o) (some n)
    else
      if line_type = pystr "new" then
        match
          (if py_startswith line (pystr "+") then
            (py_incr newC).map (fun n => (oldC, some n))
          else if !py_startswith line (pystr "-") then
            (py_incr newC).bind (fun n => (py_incr oldC).map (fun o => (some o, some n)))
          else .ok (oldC, newC)) with
        | .error e => .error e
        | .ok (oldC', newC') =>
          if newC' = some line_number then .ok (some (py_strip (line.drop 1)))
          else extract_go line_type line_number rest oldC' newC'
      else if line_type = pystr "old" then
        match
          (if py_startswith line (pystr "-") then
            (py_incr oldC).map (fun o => (some o, newC))
          else if !py_startswith line (pystr "+") then
            (py_incr oldC).bind (fun o => (py_incr newC).map (fun n => (some o, some n)))
          else .ok (oldC, newC)) with
        | .error e => .error e
        | .ok (oldC', newC') =>
          if oldC' = some line_number then .ok (some (py_strip (line.drop 1)))
          else extract_go line_type line_number rest oldC' newC'
      else
        extract_go line_type line_number rest oldC newC

/-- `extract_line_from_diff(diff_text, line_number, line_type)` (source
lines 333-373): walk the diff's lines, resetting both counters at every
hunk header, advancing them per line prefix, and returning the marker-
stripped, whitespace-trimmed line once the requested side's counter equals
`line_number`; `None` when the scan exhausts all lines. -/
def extract_line_from_diff (diff_text : PyStr) (line_number : Int)
    (line_type : PyStr := pystr "new") : Except PyError (Option PyStr) :=
  extract_go line_type line_number (py_split '\n' diff_text) none none

instance {e a : Type} [DecidableEq e] [DecidableEq a] : DecidableEq (Except e a) := fun x y =>
  match x, y with
  | .ok u, .ok v => if h : u = v then .isTrue (by rw [h]) else .isFalse (by simp [h])
  | .error u, .error v => if h : u = v then .isTrue (by rw [h]) else .isFalse (by simp [h])
  | .ok _, .error _ => .isFalse (by simp)
  | .error _, .ok _ => .isFalse (by simp)

/-- One endpoint of a GitLab position's `line_range` (`start` or `end`):
the `type` string (`"new"` or `"old"`) and the two line-number keys. -/
structure LineRangeEndpoint where
  type : PyStr
  old_line : Option Int
  new_line : Option Int
deriving DecidableEq, Repr, Inhabited

/-- The `line_range` dictionary of a position, with keys `start` and `end`
(the latter renamed `end_`, `end` being a Lean keyword). -/
structure LineRange where
  start : LineRangeEndpoint
  end_ : LineRangeEndpoint
deriving DecidableEq, Repr, Inhabited

/-- The `position` dictionary attached to an anchored note. -/
structure Position where
  base_sha : PyStr
  head_sha : PyStr
  new_path : PyStr
  line_range : LineRange
deriving DecidableEq, Repr, Inhabited

/-- A raw discussion note as listed by the GitLab API: the fields the
script reads (`note['id']`, `note['author']['username']`,
`note['created_at']`, `note['body']`, `note['system']`,
`note.get('position')`). -/
structure Note where
  id : PyStr
  author : PyStr
  created_at : Nat
  body : PyStr
  system : Bool
  position : Option Position
deriving DecidableEq, Repr, Inhabited

/-- `convert_time_format` (source lines 15-16) reformats a timestamp
string; on the natural-number timestamp model it is the identity. -/
def convert_time_format (t : Nat) : Nat := t

/-- The filtering stage of `filter_and_sort_notes` (source lines 150-157):
empty if every author equals `reviewed_username`, else the non-system
notes that pass the optional `reviewer_username` filter, in listing
order. -/
def kept_notes (reviewer_username reviewed_username : Option PyStr)
    (notes : List Note) : List Note :=
  if notes.all (fun note => some note.author == reviewed_username) then []
  else
    notes.filter (fun note =>
      (!py_truthy reviewer_username || some note.author == reviewer_username)
        && !note.system)

/-- `filter_and_sort_notes` (source lines 150-158): the kept notes sorted
by `created_at` with Python's `sorted`, a stable sort.  A stable sort by a
total preorder has a unique result, so it is embedded as insertion sort,
which Mathlib proves stable. -/
def filter_and_sort_notes (reviewer_username reviewed_username : Option PyStr)
    (notes : List Note) : List Note :=
  (kept_notes reviewer_username reviewed_username notes).insertionSort
    (fun a b => a.created_at ≤ b.created_at)

/-- One element of `get_notes`'s output (source lines 161-169). -/
structure NoteOut where
  created_at : Nat
  reviewer : PyStr
  body : PyStr
deriving DecidableEq, Repr

/-- `get_notes` (source lines 161-169). -/
def get_notes (conversation : List Note) : List NoteOut :=
  conversation.map (fun note =>
    ⟨convert_time_format note.created_at, note.author, note.body⟩)

/-- One endpoint of a record's `discussion_range`; both fields start out
`None` and are filled from the anchor position when one exists. -/
structure RangeEnd where
  line : Option Int
  type : Option PyStr
deriving DecidableEq, Repr

/-- A record's `discussion_range` dictionary (keys `start` and `end`). -/
structure DiscussionRange where
  start : RangeEnd
  end_ : RangeEnd
deriving DecidableEq, Repr

/-- The per-discussion record built by `extract_gitlab_conversations`
(source lines 78-98); `analyze` is the summary key later added by
`print_analyze`, absent (`none`) until then. -/
structure ConversationData where
  conversation_link : PyStr
  first_note_date : Nat
  note_count : Nat
  reviewers : List PyStr
  notes : List NoteOut
  diff_text : Option PyStr
  discussion_range : DiscussionRange
  analyze : Option PyStr
deriving DecidableEq, Repr

/-- `get_line_and_type_from_position` (source lines 217-221): read one
endpoint of the position's `line_range`; the line number is `new_line`
when the endpoint's `type` is `"new"`, else `old_line`. -/
def get_line_and_type_from_position (first_note_position : Position)
    (direction : PyStr) : Option Int × PyStr :=
  let position_side :=
    if direction = pystr "start" then first_note_position.line_range.start
    else first_note_position.line_range.end_
  let side_line_type := position_side.type
  let side_line :=
    if side_line_type = pystr "new" then position_side.new_line
    else position_side.old_line
  (side_line, side_line_type)

/-- `get_git_diff` (source lines 303-330), with the external
`subprocess.run(["git", "diff", ...])` call modelled by the argument
`run_git_diff`: `none` models `CalledProcessError` (the `except` branch
prints and returns `None`), `some stdout` the captured standard output.
On success every line before the first line starting with `"@@"` is
skipped and the rest are re-joined with newlines. -/
def get_git_diff (run_git_diff : PyStr → PyStr → PyStr → Option PyStr)
    (base_sha head_sha path : PyStr) : Option PyStr :=
  match run_git_diff base_sha head_sha path with
  | none => none
  | some stdout =>
    let diff_lines := py_splitlines stdout
    some (py_join '\n'
      (diff_lines.dropWhile (fun line => !py_startswith line (pystr "@@"))))

/-- The `discussion_range` value assigned on source lines 93-94, as a
function of the first note's position. -/
def range_from_position (first_note_position : Position) : DiscussionRange :=
  let se := get_line_and_type_from_position first_note_position (pystr "start")
  let ee := get_line_and_type_from_position first_note_position (pystr "end")
  ⟨⟨se.1, some se.2⟩, ⟨ee.1, some ee.2⟩⟩

/-- The per-discussion body of `extract_gitlab_conversations` (source
lines 74-98): filter and sort the notes; if any remain, build the record
(link, first note date, note count, reviewer set, notes, `diff_text` and
`discussion_range` both initialised unset), then, when the first kept
note carries a position, fetch the diff (kept only when truthy) and fill
`discussion_range` from the position.  `link_base` abstracts the
project-URL-and-merge-request-iid prefix; `reviewers` is a
joined Python set, whose iteration order is unspecified, modelled as the
deduplicated author list. -/
def process_discussion (run_git_diff : PyStr → PyStr → PyStr → Option PyStr)
    (reviewer_username reviewed_username : Option PyStr) (link_base : PyStr)
    (notes : List Note) : Option ConversationData :=
  match filter_and_sort_notes reviewer_username reviewed_username notes with
  | [] => none
  | first :: rest =>
    let conversation := first :: rest
    let base : ConversationData :=
      { conversation_link := link_base ++ pystr "#note_" ++ first.id
        first_note_date := convert_time_format first.created_at
        note_count := conversation.length
        reviewers := (conversation.map (fun n => n.author)).dedup
        notes := get_notes conversation
        diff_text := none
        discussion_range := ⟨⟨none, none⟩, ⟨none, none⟩⟩
        analyze := none }
    match first.position with
    | none => some base
    | some first_note_position =>
      let git_diff := get_git_diff run_git_diff first_note_position.base_sha
        first_note_position.head_sha first_note_position.new_path
      let diff_text : Option PyStr :=
        match git_diff with
        | some d => if d.isEmpty then none else some d
        | none => none
      some { base with
        diff_text := diff_text
        discussion_range := range_from_position first_note_position }

/-- The discussion loop of `extract_gitlab_conversations` (source lines
73-98): each discussion's note list yields at most one record, appended
in order; discussions whose conversation filters to empty are skipped. -/
def extract_gitlab_conversations
    (run_git_diff : PyStr → PyStr → PyStr → Option PyStr)
    (reviewer_username reviewed_username : Option PyStr) (link_base : PyStr)
    (discussions : List (List Note)) : List ConversationData :=
  discussions.filterMap
    (process_discussion run_git_diff reviewer_username reviewed_username link_base)

/-- The first loop of `print_analyze` (source lines 225-230): call the
summarization collaborator per record inside `try`; on success store the
result under the `analyze` key, on any exception print it and leave the
record unchanged (its `analyze` key stays absent).  `analyze_review`
abstracts `analyze_review_discussion`, the external OpenAI call behind a
retry wrapper, receiving the joined conversation text, the diff text and
the discussion range; `.error` models an exception escaping the retry. -/
def analyzed_data
    (analyze_review : PyStr → Option PyStr → DiscussionRange → Except PyStr PyStr)
    (conversation_data : List ConversationData) : List ConversationData :=
  conversation_data.map (fun data =>
    let conversation :=
      py_join '\n' (data.notes.map (fun n => n.reviewer ++ pystr ": " ++ n.body))
    match analyze_review conversation data.diff_text data.discussion_range with
    | .ok answer => { data with analyze := some answer }
    | .error _ => data)

/-- One printed (or CSV) output row: the fields interpolated on source
lines 234-235 and 249-255. -/
structure OutRow where
  conversation_link : PyStr
  first_note_date : Nat
  note_count : Nat
  analyze : PyStr
  reviewers : List PyStr
deriving DecidableEq, Repr

/-- Rendering one record as an output row: `data['analyze']` raises
`KeyError` when the key was never set (summarization failed for that
record). -/
def record_row (data : ConversationData) : Except PyStr OutRow :=
  match data.analyze with
  | some answer =>
    .ok ⟨data.conversation_link, data.first_note_date, data.note_count,
      answer, data.reviewers⟩
  | none => .error (pystr "KeyError: analyze")

/-- `print_to_csv` (source lines 240-255): one row per record, each
reading `data['analyze']`; the first record without the key aborts the
write with `KeyError`. -/
def print_to_csv (conversation_data : List ConversationData) :
    Except PyStr (List OutRow) :=
  conversation_data.mapM record_row

/-- `print_analyze` (source lines 224-237): summarize every record with a
per-record exception handler, then print one row per record and, when a
CSV path is configured, write the CSV.  The print loop and the CSV writer
both read `data['analyze']` unconditionally, so an uncaught `KeyError`
escapes (modelled by `.error`) as soon as a record's summarization had
failed; rows printed before the exception are lost with it. -/
def print_analyze
    (analyze_review : PyStr → Option PyStr → DiscussionRange → Except PyStr PyStr)
    (conversation_data : List ConversationData) (result_csv_file : Bool) :
    Except PyStr (List OutRow × Option (List OutRow)) :=
  let data := analyzed_data analyze_review conversation_data
  match data.mapM record_row with
  | .error e => .error e
  | .ok printed =>
    if result_csv_file then
      match print_to_csv data with
      | .error e => .error e
      | .ok rows => .ok (printed, some rows)
    else .ok (printed, none)

/-- Boolean success test for `parse_hunk_header`, used to state decidable
well-formedness hypotheses about concrete diffs. -/
def hunk_header_ok (line : PyStr) : Bool :=
  match parse_hunk_header line with
  | .ok _ => true
  | .error _ => false

/-- The single-hunk diff of the spec's worked example:
`@@ -10,3 +10,4 @@` followed by a context line, an added line and a
second context line. -/
def exampleDiff : PyStr :=
  pystr "@@ -10,3 +10,4 @@\n context1\n+added1\n context2"

/-- A diff whose only hunk header has a non-numeric old counter. -/
def malformedDiff : PyStr := pystr "@@ -x,3 +10,4 @@\n context"

/-- A well-formed one-hunk diff used as a witness input. -/
def smallDiff : PyStr := pystr "@@ -1,1 +1,1 @@\n x"

/-- A position anchored at new line 5 (both range endpoints). -/
def pos5 : Position :=
  ⟨pystr "b", pystr "h", pystr "f",
    ⟨⟨pystr "new", none, some 5⟩, ⟨pystr "new", none, some 5⟩⟩⟩

/-- A position anchored at new line 99, outside `smallDiff`'s only hunk. -/
def pos99 : Position :=
  ⟨pystr "b", pystr "h", pystr "f",
    ⟨⟨pystr "new", none, some 99⟩, ⟨pystr "new", none, some 99⟩⟩⟩

/-- An anchored first note (author `alice`, position on new line 5). -/
def nAnchor : Note :=
  ⟨pystr "1", pystr "alice", 1, pystr "looks wrong", false, some pos5⟩

/-- An unanchored reply note by a different author. -/
def nReply : Note := ⟨pystr "2", pystr "bob", 2, pystr "fixed", false, none⟩

/-- A note anchored at `pos99`. -/
def n99 : Note :=
  ⟨pystr "9", pystr "carol", 1, pystr "hm", false, some pos99⟩

/-- Note by author `A` at time 2 (the spec's normalizer example). -/
def noteA2 : Note := ⟨pystr "a", pystr "A", 2, pystr "m1", false, none⟩

/-- Note by author `B` at time 1 (the spec's normalizer example). -/
def noteB1 : Note := ⟨pystr "b", pystr "B", 1, pystr "m2", false, none⟩

/-- A record with no diff text and no summary yet. -/
def dataA : ConversationData :=
  ⟨pystr "L1", 1, 1, [pystr "A"], [⟨1, pystr "A", pystr "m1"⟩], none,
    ⟨⟨none, none⟩, ⟨none, none⟩⟩, none⟩

/-- A record carrying diff text and no summary yet. -/
def dataB : ConversationData :=
  ⟨pystr "L2", 2, 1, [pystr "B"], [⟨2, pystr "B", pystr "m2"⟩], some smallDiff,
    ⟨⟨none, none⟩, ⟨none, none⟩⟩, none⟩

/-- A summarization collaborator that raises (e.g. rate limiting) exactly
on records without diff text and succeeds on the others. -/
def summFail1 : PyStr → Option PyStr → DiscussionRange → Except PyStr PyStr :=
  fun _ diff _ =>
    match diff with
    | none => .error (pystr "RateLimitError")
    | some _ => .ok (pystr "insight")

/-- Raw `git diff` output with meta lines before the first hunk header. -/
def rawDiffW : PyStr := pystr "diff --git a b\nindex 123\n@@ -1 +1 @@\n x\n"

/-- C1: the claim states that on `exampleDiff` the New side at target 11
resolves to `added1` and the Old side at target 11 to NotFound.  The code
returns `context1` for both: it advances the cursors before comparing, so
the hunk's first content line matches at the header counter plus one, on
both sides. -/
theorem extract_line11_counterexample :
    extract_line_from_diff exampleDiff 11 (pystr "new")
        = .ok (some (pystr "context1"))
      ∧ extract_line_from_diff exampleDiff 11 (pystr "old")
        = .ok (some (pystr "context1"))
      ∧ pystr "context1" ≠ pystr "added1" :=
  ⟨rfl, rfl, by decide⟩

/-- C1 (amended): on `exampleDiff`, target 11 returns `context1` on both
sides; the added line is only returned for a New-side target of 12, and
the Old side at 12 returns `context2` (the second context line), because
the resolver increments the requested side's cursor before each
comparison, so the first content line matches at the header's counter
plus one. -/
theorem extract_line_off_by_one_behaviour :
    extract_line_from_diff exampleDiff 11 (pystr "new")
        = .ok (some (pystr "context1"))
      ∧ extract_line_from_diff exampleDiff 11 (pystr "old")
        = .ok (some (pystr "context1"))
      ∧ extract_line_from_diff exampleDiff 12 (pystr "new")
        = .ok (some (pystr "added1"))
      ∧ extract_line_from_diff exampleDiff 12 (pystr "old")
        = .ok (some (pystr "context2")) :=
  ⟨rfl, rfl, rfl, rfl⟩

/-- C2: the claim (matching standard unified-diff semantics, where the
first content line of `@@ -10,3 +10,4 @@` is old line 10 and new line
10) states that target 10 resolves to `context1` on both sides; the code
instead returns `None` for both, because it increments the cursor before
the comparison and therefore never compares against the header's verbatim
counter values. -/
theorem extract_line10_returns_none :
    extract_line_from_diff exampleDiff 10 (pystr "old") = .ok none
      ∧ extract_line_from_diff exampleDiff 10 (pystr "new") = .ok none :=
  ⟨rfl, rfl⟩

/-- C7 (counterexample): the claim states the resolver is total, returning
line text or NotFound for every diff text including the empty string; on
the empty string the code instead raises `TypeError` (the first content
line is reached with both counters still `None` and `None + 1` fails). -/
theorem extract_line_empty_crash_counterexample :
    extract_line_from_diff (pystr "") 1 (pystr "new") = .error .typeError :=
  rfl

/-- C8 (counterexample): the claim states that an unparsable hunk header
fails with a `MalformedDiffError` naming the offending header line; the
code raises `int()`'s `ValueError`, which carries only the unparsable
counter token (`x`), not the header line, and no such error type or
per-diff recovery exists. -/
theorem malformed_header_counterexample :
    extract_line_from_diff malformedDiff 1 (pystr "new")
        = .error (.valueError (pystr "x"))
      ∧ pystr "x" ≠ pystr "@@ -x,3 +10,4 @@" :=
  ⟨rfl, by decide⟩

/-- C8 (amended): whatever the target line and side, scanning a diff whose
first hunk header has a non-numeric counter aborts at that header with a
`ValueError` carrying the unparsable token — the header is not silently
skipped and no later line is examined. -/
theorem malformed_header_aborts_scan (line_number : Int) (line_type : PyStr) :
    extract_line_from_diff malformedDiff line_number line_type
      = .error (.valueError (pystr "x")) :=
  rfl

/-- C3 (counterexample): the claim states `resolved_range` is computed by
running the line-position resolver on the diff text; in the code the
resolver is never invoked — the record built for a note anchored at new
line 99 stores line 99 taken from the position metadata even though the
resolver finds nothing at 99 in the fetched diff, and the stored range is
the same when diff retrieval returns nothing at all. -/
theorem discussion_range_ignores_resolver_counterexample :
    ((process_discussion (fun _ _ _ => some smallDiff) none (some (pystr "X"))
        (pystr "") [n99]).map
      (fun r => (r.diff_text, r.discussion_range.start.line)))
        = some (some smallDiff, some 99)
      ∧ ((process_discussion (fun _ _ _ => none) none (some (pystr "X"))
          (pystr "") [n99]).map (fun r => r.discussion_range.start.line))
        = some (some 99)
      ∧ extract_line_from_diff smallDiff 99 (pystr "new") = .ok none :=
  ⟨rfl, rfl, rfl⟩

/-- C4 (counterexample): the claim states the record keeps the anchor of
the first note in original pre-filter order even when that note is
removed by the reviewer filter; in the code the anchor is read from the
first note of the filtered conversation, so when `alice`'s anchored note
is filtered out by `reviewer_username = bob`, the record carries no
anchor at all — `diff_text` and `discussion_range` stay unset although a
diff would have been available. -/
theorem anchor_lost_when_first_note_filtered_counterexample :
    ((process_discussion (fun _ _ _ => some smallDiff) (some (pystr "bob"))
        (some (pystr "X")) (pystr "") [nAnchor, nReply]).map
      (fun r => (r.diff_text, r.discussion_range)))
        = some (none, ⟨⟨none, none⟩, ⟨none, none⟩⟩)
      ∧ nAnchor.position ≠ none :=
  ⟨rfl, by decide⟩

/-- C5 (counterexample): the claim states that when diff retrieval returns
absent both `diff_text` and `resolved_range` are unset; in the code only
`diff_text` stays unset — `discussion_range` is still populated from the
anchor position (here line 5, type `new`). -/
theorem diff_absent_range_still_set_counterexample :
    ((process_discussion (fun _ _ _ => none) none (some (pystr "X"))
        (pystr "") [nAnchor, nReply]).map
      (fun r => (r.diff_text, r.discussion_range.start.line)))
      = some (none, some 5) :=
  rfl

/-- C6: the claim states a summarization failure is caught per record,
leaving that record's summary unset while printing and CSV output for the
whole batch complete.  The first half holds — the summarization loop
catches the failure on `dataA` and still summarizes `dataB` — but the
subsequent display loop reads the missing `analyze` key and raises
`KeyError`, aborting the printed output and the CSV write for the whole
batch. -/
theorem print_analyze_keyerror_aborts_batch :
    analyzed_data summFail1 [dataA, dataB]
        = [dataA, { dataB with analyze := some (pystr "insight") }]
      ∧ print_analyze summFail1 [dataA, dataB] true
        = .error (pystr "KeyError: analyze")
      ∧ print_to_csv (analyzed_data summFail1 [dataA, dataB])
        = .error (pystr "KeyError: analyze") :=
  ⟨rfl, rfl, rfl⟩

/-- Notes ordered by `created_at`: the key Python's `sorted` sorts by. -/
instance : IsTotal Note (fun a b => a.created_at ≤ b.created_at) :=
  ⟨fun a b => Nat.le_total a.created_at b.created_at⟩

/-- Transitivity of the `created_at` order. -/
instance : IsTrans Note (fun a b => a.created_at ≤ b.created_at) :=
  ⟨fun _ _ _ hab hbc => Nat.le_trans hab hbc⟩

/-- C3 (amended): for every discussion whose first kept (post-filter,
time-sorted) note carries a position, the record's `discussion_range` is
read directly from that position's `line_range` — the diff resolver is
not involved — and via `range_from_position` each endpoint is computed
from its own side of the `line_range` independently of the other. -/
theorem discussion_range_from_position
    (run_git_diff : PyStr → PyStr → PyStr → Option PyStr)
    (reviewer_username reviewed_username : Option PyStr) (link_base : PyStr)
    (notes : List Note) (first : Note) (rest : List Note) (pos : Position)
    (hconv : filter_and_sort_notes reviewer_username reviewed_username notes
      = first :: rest)
    (hpos : first.position = some pos) :
    (process_discussion run_git_diff reviewer_username reviewed_username
        link_base notes).map (fun r => r.discussion_range)
      = some (range_from_position pos) := by
  simp only [process_discussion, hconv, hpos]
  rfl

/-- Witness for `discussion_range_from_position` at the concrete
single-note discussion anchored at `pos99`. -/
theorem discussion_range_from_position_witness :
    (process_discussion (fun _ _ _ => some smallDiff) none (some (pystr "X"))
        (pystr "") [n99]).map (fun r => r.discussion_range)
      = some (range_from_position pos99) :=
  discussion_range_from_position (fun _ _ _ => some smallDiff) none
    (some (pystr "X")) (pystr "") [n99] n99 [] pos99 (by decide) rfl

/-- C4 (amended): the anchor is read from the first note of the filtered,
sorted conversation; when that note carries no position — in particular
when the original anchor-bearing first note was removed by the reviewer
filter — the record carries no anchor: `diff_text` and `discussion_range`
remain unset. -/
theorem anchor_from_first_kept_note
    (run_git_diff : PyStr → PyStr → PyStr → Option PyStr)
    (reviewer_username reviewed_username : Option PyStr) (link_base : PyStr)
    (notes : List Note) (first : Note) (rest : List Note)
    (hconv : filter_and_sort_notes reviewer_username reviewed_username notes
      = first :: rest)
    (hpos : first.position = none) :
    (process_discussion run_git_diff reviewer_username reviewed_username
        link_base notes).map (fun r => (r.diff_text, r.discussion_range))
      = some (none, ⟨⟨none, none⟩, ⟨none, none⟩⟩) := by
  simp only [process_discussion, hconv, hpos]
  rfl

/-- Witness for `anchor_from_first_kept_note`: `alice`'s anchored note is
removed by the `bob` reviewer filter, leaving the unanchored reply as the
first kept note. -/
theorem anchor_from_first_kept_note_witness :
    (process_discussion (fun _ _ _ => some smallDiff) (some (pystr "bob"))
        (some (pystr "X")) (pystr "") [nAnchor, nReply]).map
      (fun r => (r.diff_text, r.discussion_range))
      = some (none, ⟨⟨none, none⟩, ⟨none, none⟩⟩) :=
  anchor_from_first_kept_note (fun _ _ _ => some smallDiff)
    (some (pystr "bob")) (some (pystr "X")) (pystr "") [nAnchor, nReply]
    nReply [] (by decide) rfl

/-- C5 (amended): when diff retrieval returns absent for the anchor, the
record's `diff_text` stays unset but `discussion_range` is still
populated from the anchor position, and the pipeline loop continues with
the remaining discussions (each discussion contributes its own record
independently, with no error propagation). -/
theorem diff_absent_record_fields
    (run_git_diff : PyStr → PyStr → PyStr → Option PyStr)
    (reviewer_username reviewed_username : Option PyStr) (link_base : PyStr)
    (notes : List Note) (first : Note) (rest : List Note) (pos : Position)
    (hconv : filter_and_sort_notes reviewer_username reviewed_username notes
      = first :: rest)
    (hpos : first.position = some pos)
    (habsent : run_git_diff pos.base_sha pos.head_sha pos.new_path = none) :
    (process_discussion run_git_diff reviewer_username reviewed_username
        link_base notes).map (fun r => (r.diff_text, r.discussion_range))
      = some (none, range_from_position pos)
    ∧ ∀ ds, extract_gitlab_conversations run_git_diff reviewer_username
          reviewed_username link_base (notes :: ds)
        = (process_discussion run_git_diff reviewer_username reviewed_username
            link_base notes).toList
          ++ extract_gitlab_conversations run_git_diff reviewer_username
              reviewed_username link_base ds := by
  constructor
  · simp only [process_discussion, hconv, hpos, get_git_diff, habsent]
    rfl
  · intro ds
    simp only [extract_gitlab_conversations, List.filterMap_cons]
    cases process_discussion run_git_diff reviewer_username reviewed_username
      link_base notes <;> simp

/-- Witness for `diff_absent_record_fields` at the concrete two-note
discussion anchored at `pos5`, with a failing `git diff` collaborator. -/
theorem diff_absent_record_fields_witness :
    (process_discussion (fun _ _ _ => none) none (some (pystr "X"))
        (pystr "") [nAnchor, nReply]).map
      (fun r => (r.diff_text, r.discussion_range))
      = some (none, range_from_position pos5) :=
  (diff_absent_record_fields (fun _ _ _ => none) none (some (pystr "X"))
    (pystr "") [nAnchor, nReply] nAnchor [nReply] pos5
    (by decide) rfl rfl).1

/-- C9: `filter_and_sort_notes` orders the kept notes ascending by
creation time (first conjunct), permutes exactly the filtered notes
(second), and is stable — any two kept notes in key order keep their
relative listing order (third); in particular the two-note example
`[A(t=2), B(t=1)]` normalizes to `[B, A]` regardless of input order
(last two conjuncts). -/
theorem filter_and_sort_notes_sorted_stable :
    (∀ (rv ru : Option PyStr) (notes : List Note),
        (filter_and_sort_notes rv ru notes).Pairwise
          (fun a b => a.created_at ≤ b.created_at))
      ∧ (∀ (rv ru : Option PyStr) (notes : List Note),
          (filter_and_sort_notes rv ru notes).Perm (kept_notes rv ru notes))
      ∧ (∀ (rv ru : Option PyStr) (notes : List Note) (a b : Note),
          a.created_at ≤ b.created_at →
          [a, b].Sublist (kept_notes rv ru notes) →
          [a, b].Sublist (filter_and_sort_notes rv ru notes))
      ∧ filter_and_sort_notes none (some (pystr "X")) [noteA2, noteB1]
          = [noteB1, noteA2]
      ∧ filter_and_sort_notes none (some (pystr "X")) [noteB1, noteA2]
          = [noteB1, noteA2] := by
  refine ⟨?_, ?_, ?_, by decide, by decide⟩
  · intro rv ru notes
    exact List.sorted_insertionSort (fun a b : Note => a.created_at ≤ b.created_at)
      (kept_notes rv ru notes)
  · intro rv ru notes
    exact List.perm_insertionSort _ _
  · intro rv ru notes a b hab hsub
    exact List.pair_sublist_insertionSort hab hsub

/-- Witness for `filter_and_sort_notes_sorted_stable`: the stability
conjunct applied to a concrete equal-key pair. -/
theorem filter_and_sort_notes_sorted_stable_witness :
    [noteB1, noteB1].Sublist
      (filter_and_sort_notes none (some (pystr "X")) [noteB1, noteB1]) :=
  filter_and_sort_notes_sorted_stable.2.2.1 none (some (pystr "X"))
    [noteB1, noteB1] noteB1 noteB1 (by decide) (by decide)

/-- Helper: the head of a non-empty `dropWhile` result falsifies the
predicate. -/
theorem dropWhile_cons_head_false {α : Type} (p : α → Bool) :
    ∀ (l : List α) (hd : α) (tl : List α),
      l.dropWhile p = hd :: tl → p hd = false := by
  intro l
  induction l with
  | nil => intro hd tl h; simp [List.dropWhile] at h
  | cons x xs ih =>
    intro hd tl h
    rw [List.dropWhile_cons] at h
    by_cases hx : p x
    · rw [if_pos hx] at h
      exact ih hd tl h
    · rw [if_neg hx] at h
      cases h
      exact Bool.not_eq_true _ ▸ eq_false_of_ne_true hx

/-- Helper: joining a non-empty list of parts starts with the first part. -/
theorem py_join_cons_prefix (sep : Char) (hd : PyStr) (tl : List PyStr) :
    ∃ r, py_join sep (hd :: tl) = hd ++ r := by
  cases tl with
  | nil => exact ⟨[], by simp [py_join, List.intersperse]⟩
  | cons b bs =>
    exact ⟨[sep] ++ py_join sep (b :: bs), by simp [py_join, List.intersperse]⟩

/-- Helper: `startswith` is preserved by appending on the right. -/
theorem py_startswith_append (s r p : PyStr) (h : py_startswith s p = true) :
    py_startswith (s ++ r) p = true := by
  rw [py_startswith, List.isPrefixOf_iff_prefix] at h ⊢
  exact h.trans (List.prefix_append s r)

/-- C10: `get_git_diff` returns `None` exactly when the git subprocess
fails; on success it returns the raw output with every line preceding the
first hunk-header line removed (the kept suffix is the `dropWhile`, every
dropped line fails the header test), so the returned text either starts
with `@@` or is the empty string when no header exists at all. -/
theorem get_git_diff_spec :
    (∀ (run_git_diff : PyStr → PyStr → PyStr → Option PyStr) (b h p : PyStr),
        run_git_diff b h p = none → get_git_diff run_git_diff b h p = none)
      ∧ ∀ (run_git_diff : PyStr → PyStr → PyStr → Option PyStr)
          (b h p stdout : PyStr), run_git_diff b h p = some stdout →
          (py_splitlines stdout).takeWhile
              (fun line => !py_startswith line (pystr "@@"))
            ++ (py_splitlines stdout).dropWhile
              (fun line => !py_startswith line (pystr "@@"))
            = py_splitlines stdout
        ∧ (∀ line ∈ (py_splitlines stdout).takeWhile
              (fun line => !py_startswith line (pystr "@@")),
            py_startswith line (pystr "@@") = false)
        ∧ get_git_diff run_git_diff b h p
            = some (py_join '\n' ((py_splitlines stdout).dropWhile
                (fun line => !py_startswith line (pystr "@@"))))
        ∧ (py_join '\n' ((py_splitlines stdout).dropWhile
              (fun line => !py_startswith line (pystr "@@"))) = []
            ∨ py_startswith
                (py_join '\n' ((py_splitlines stdout).dropWhile
                  (fun line => !py_startswith line (pystr "@@")))) (pystr "@@")
              = true) := by
  constructor
  · intro rgd b h p habs
    simp only [get_git_diff, habs]
  · intro rgd b h p stdout hsome
    refine ⟨List.takeWhile_append_dropWhile _ _, ?_, ?_, ?_⟩
    · intro line hline
      have := List.mem_takeWhile_imp hline
      simpa using this
    · simp only [get_git_diff, hsome]
    · cases hdw : (py_splitlines stdout).dropWhile
        (fun line => !py_startswith line (pystr "@@")) with
      | nil => exact Or.inl rfl
      | cons hd tl =>
        right
        have hhd : py_startswith hd (pystr "@@") = true := by
          have := dropWhile_cons_head_false _ _ _ _ hdw
          simpa using this
        obtain ⟨r, hr⟩ := py_join_cons_prefix '\n' hd tl
        rw [hr]
        exact py_startswith_append _ _ _ hhd

/-- Witness for `get_git_diff_spec`: both conjuncts at concrete
collaborators (a failing subprocess, and one emitting `rawDiffW`). -/
theorem get_git_diff_spec_witness :
    get_git_diff (fun _ _ _ => none) (pystr "b") (pystr "h") (pystr "f")
        = none
      ∧ get_git_diff (fun _ _ _ => some rawDiffW) (pystr "b") (pystr "h")
          (pystr "f")
        = some (py_join '\n' ((py_splitlines rawDiffW).dropWhile
            (fun line => !py_startswith line (pystr "@@")))) :=
  ⟨get_git_diff_spec.1 (fun _ _ _ => none) (pystr "b") (pystr "h") (pystr "f")
      rfl,
    (get_git_diff_spec.2 (fun _ _ _ => some rawDiffW) (pystr "b") (pystr "h")
      (pystr "f") rawDiffW rfl).2.2.1⟩

/-- Helper: `py_split` never returns an empty list (Python `split` always
yields at least one fragment). -/
theorem py_split_ne_nil (sep : Char) (s : PyStr) : py_split sep s ≠ [] := by
  cases s with
  | nil => simp [py_split]
  | cons c cs =>
    simp only [py_split]
    by_cases h : c = sep
    · simp [h]
    · rcases hr : py_split sep cs with _ | ⟨hd, tl⟩ <;> simp [h, hr]

/-- Helper: on a New-side content line with both counters initialised, the
cursor-advance step never raises. -/
theorem advance_new_ok (line : PyStr) (a b : Int) :
    ∃ o' n', (if py_startswith line (pystr "+") then
        (py_incr (some b)).map (fun n => ((some a : Option Int), some n))
      else if !py_startswith line (pystr "-") then
        (py_incr (some b)).bind
          (fun n => (py_incr (some a)).map (fun o => (some o, some n)))
      else .ok (some a, some b)) = .ok (some o', some n') := by
  by_cases hp : py_startswith line (pystr "+")
  · exact ⟨a, b + 1, by simp [hp, py_incr, Except.map]⟩
  · by_cases hm : py_startswith line (pystr "-")
    · exact ⟨a, b, by simp [hp, hm]⟩
    · exact ⟨a + 1, b + 1, by simp [hp, hm, py_incr, Except.map, Except.bind]⟩

/-- Helper: on an Old-side content line with both counters initialised,
the cursor-advance step never raises. -/
theorem advance_old_ok (line : PyStr) (a b : Int) :
    ∃ o' n', (if py_startswith line (pystr "-") then
        (py_incr (some a)).map (fun o => (some o, (some b : Option Int)))
      else if !py_startswith line (pystr "+") then
        (py_incr (some a)).bind
          (fun o => (py_incr (some b)).map (fun n => (some o, some n)))
      else .ok (some a, some b)) = .ok (some o', some n') := by
  by_cases hm : py_startswith line (pystr "-")
  · exact ⟨a + 1, b, by simp [hm, py_incr, Except.map]⟩
  · by_cases hp : py_startswith line (pystr "+")
    · exact ⟨a, b, by simp [hm, hp]⟩
    · exact ⟨a + 1, b + 1, by simp [hm, hp, py_incr, Except.map, Except.bind]⟩

/-- Helper: once both counters are initialised, the scan loop is total on
any tail whose header lines all parse, and any value it returns is a
marker-stripped, trimmed line of that tail. -/
theorem extract_go_total (line_type : PyStr) (line_number : Int) :
    ∀ (lines : List PyStr) (a b : Int),
      (∀ l ∈ lines, py_startswith l (pystr "@@") = true → hunk_header_ok l = true) →
      ∃ o, extract_go line_type line_number lines (some a) (some b) = .ok o
        ∧ (o = none ∨ ∃ l, l ∈ lines ∧ o = some (py_strip (l.drop 1))) := by
  intro lines
  induction lines with
  | nil => intro a b _; exact ⟨none, rfl, Or.inl rfl⟩
  | cons line rest ih =>
    intro a b hok
    by_cases hh : py_startswith line (pystr "@@") = true
    · have hok1 := hok line (List.mem_cons_self _ _) hh
      rcases hp : parse_hunk_header line with e | pr
      · rw [hunk_header_ok, hp] at hok1
        cases hok1
      · obtain ⟨r, hr, hcases⟩ :=
          ih pr.1 pr.2 (fun l hl => hok l (List.mem_cons_of_mem _ hl))
        refine ⟨r, ?_, ?_⟩
        · simp only [extract_go, hh, if_true, hp]
          exact hr
        · rcases hcases with h | ⟨l, hl, hval⟩
          · exact Or.inl h
          · exact Or.inr ⟨l, List.mem_cons_of_mem _ hl, hval⟩
    · have hrec : ∀ (a' b' : Int),
          ∃ o, extract_go line_type line_number rest (some a') (some b') = .ok o
            ∧ (o = none ∨ ∃ l, l ∈ rest ∧ o = some (py_strip (l.drop 1))) :=
        fun a' b' => ih a' b' (fun l hl => hok l (List.mem_cons_of_mem _ hl))
      by_cases hnew : line_type = pystr "new"
      · obtain ⟨o', n', hadv⟩ := advance_new_ok line a b
        by_cases heq : (some n' : Option Int) = some line_number
        · refine ⟨some (py_strip (line.drop 1)), ?_,
            Or.inr ⟨line, List.mem_cons_self _ _, rfl⟩⟩
          simp only [extract_go, hh, if_false, hnew, if_true, hadv, heq, if_pos]
          rfl
        · obtain ⟨r, hr, hcases⟩ := hrec o' n'
          refine ⟨r, ?_, ?_⟩
          · simp only [extract_go, hh, if_false, hnew, if_true, hadv, heq]
            simpa [hnew] using hr
          · rcases hcases with h | ⟨l, hl, hval⟩
            · exact Or.inl h
            · exact Or.inr ⟨l, List.mem_cons_of_mem _ hl, hval⟩
      · by_cases hold : line_type = pystr "old"
        · obtain ⟨o', n', hadv⟩ := advance_old_ok line a b
          by_cases heq : (some o' : Option Int) = some line_number
          · refine ⟨some (py_strip (line.drop 1)), ?_,
              Or.inr ⟨line, List.mem_cons_self _ _, rfl⟩⟩
            simp only [extract_go, hh, if_false, hold,
              show ¬(pystr "old" = pystr "new") from by decide, hadv, heq, if_pos]
            rfl
          · obtain ⟨r, hr, hcases⟩ := hrec o' n'
            refine ⟨r, ?_, ?_⟩
            · simp only [extract_go, hh, if_false, hold,
                show ¬(pystr "old" = pystr "new") from by decide, hadv, heq]
              simpa [hold] using hr
            · rcases hcases with h | ⟨l, hl, hval⟩
              · exact Or.inl h
              · exact Or.inr ⟨l, List.mem_cons_of_mem _ hl, hval⟩
        · obtain ⟨r, hr, hcases⟩ := hrec a b
          refine ⟨r, ?_, ?_⟩
          · simp only [extract_go, hh, if_false, hnew, hold]
            exact hr
          · rcases hcases with h | ⟨l, hl, hval⟩
            · exact Or.inl h
            · exact Or.inr ⟨l, List.mem_cons_of_mem _ hl, hval⟩

/-- C7 (amended): the resolver is total on every diff text whose first
line is a hunk header and whose header lines all have parseable counters:
for any target line and side it returns `.ok` with either `None`
(NotFound — in particular when all hunks are exhausted without a match)
or the text of one of the diff's lines with the leading marker character
stripped and surrounding whitespace trimmed.  (On the empty string, or
any text with a content line before the first header, the code instead
raises `TypeError`.) -/
theorem extract_line_total_on_headed_input
    (diff_text : PyStr) (line_number : Int) (line_type : PyStr)
    (hhead : py_startswith ((py_split '\n' diff_text).headD []) (pystr "@@")
      = true)
    (hparse : ∀ l ∈ py_split '\n' diff_text,
      py_startswith l (pystr "@@") = true → hunk_header_ok l = true) :
    ∃ o : Option PyStr,
      extract_line_from_diff diff_text line_number line_type = .ok o
        ∧ (o = none ∨ ∃ l, l ∈ py_split '\n' diff_text
            ∧ o = some (py_strip (l.drop 1))) := by
  rcases hs : py_split '\n' diff_text with _ | ⟨hd, tl⟩
  · exact absurd hs (py_split_ne_nil _ _)
  · rw [hs] at hhead hparse
    simp only [List.headD_cons] at hhead
    have hok1 := hparse hd (List.mem_cons_self _ _) hhead
    rcases hp : parse_hunk_header hd with e | pr
    · rw [hunk_header_ok, hp] at hok1
      cases hok1
    · obtain ⟨r, hr, hcases⟩ := extract_go_total line_type line_number tl pr.1 pr.2
        (fun l hl => hparse l (List.mem_cons_of_mem _ hl))
      refine ⟨r, ?_, ?_⟩
      · rw [extract_line_from_diff, hs]
        simp only [extract_go, hhead, if_true, hp]
        exact hr
      · rcases hcases with h | ⟨l, hl, hval⟩
        · exact Or.inl h
        · exact Or.inr ⟨l, List.mem_cons_of_mem _ hl, hval⟩

/-- Witness for `extract_line_total_on_headed_input` at the concrete
one-hunk diff `smallDiff`. -/
theorem extract_line_total_witness :
    ∃ o : Option PyStr,
      extract_line_from_diff smallDiff 2 (pystr "new") = .ok o
        ∧ (o = none ∨ ∃ l, l ∈ py_split '\n' smallDiff
            ∧ o = some (py_strip (l.drop 1))) :=
  extract_line_total_on_headed_input smallDiff 2 (pystr "new")
    (by decide) (by decide)

/-- Witness for `malformed_header_aborts_scan` at a concrete target and
side. -/
theorem malformed_header_aborts_scan_witness :
    extract_line_from_diff malformedDiff 7 (pystr "old")
      = .error (.valueError (pystr "x")) :=
  malformed_header_aborts_scan 7 (pystr "old")
